import Mathlib

/-!
Verification of the context-formatting / answer-composition pipeline of the
War Tycoon oracle bot.  The definitions below are a shallow embedding of the
request handler and its helpers (`formatRetrievedContext`, the keyword tables,
the intent-detection and direct-fetch logic, and the sort / deduplicate /
cap merge step).

Embedding conventions:
* JavaScript numbers are modelled as `ℚ` (the metadata values occurring here
  are decimal literals); `Number.prototype.toFixed(4)` is modelled as exact
  decimal rounding of the rational, and the generic number-to-string
  conversion as `ratStr`.
* JavaScript strings are Lean `String`s; `toLowerCase`, `trim` and
  `includes` are modelled on the underlying character lists.
* `undefined` / absent object fields are `Option.none`; JavaScript
  truthiness of strings ("" is falsy) and numbers (0 is falsy) is modelled
  explicitly where the source relies on it (`||`, `if (x)`), while `??` and
  `!== undefined` translate to matching on the `Option` only.
* The upstream services (embedding, vector query, fetch-by-id, completion)
  are an explicit `Oracle` of `Except`-valued results; a thrown exception is
  the `Except.error` case carrying the error message.  The handler records
  which upstream calls it performs in a `CallLog`.
-/

/-- Characterwise lowercasing; model of `String.prototype.toLowerCase` for
the ASCII strings used by the handler. -/
def lowerStr (s : String) : String := String.mk (s.data.map Char.toLower)

/-- `startsWithChars needle hay`: `hay` starts with `needle`. -/
def startsWithChars : List Char → List Char → Bool
  | [], _ => true
  | _ :: _, [] => false
  | a :: as, b :: bs => a = b && startsWithChars as bs

/-- `containsChars needle hay`: `needle` occurs contiguously in `hay`. -/
def containsChars (needle : List Char) : List Char → Bool
  | [] => startsWithChars needle []
  | c :: rest => startsWithChars needle (c :: rest) || containsChars needle rest

/-- Model of `hay.includes(needle)` on JavaScript strings. -/
def strIncludes (hay needle : String) : Bool := containsChars needle.data hay.data

/-- Model of `String.prototype.trim`: strip whitespace from both ends. -/
def trimStr (s : String) : String :=
  String.mk (((s.data.dropWhile Char.isWhitespace).reverse.dropWhile Char.isWhitespace).reverse)

def padLeft4 (s : String) : String :=
  if s.length ≥ 4 then s else String.mk (List.replicate (4 - s.length) '0') ++ s

def fixed4OfNat (n : Nat) : String :=
  toString (n / 10000) ++ "." ++ padLeft4 (toString (n % 10000))

/-- Model of `score.toFixed(4)`: round the rational to four decimal places
(ties rounded up) and print with exactly four fractional digits. -/
def toFixed4 (q : ℚ) : String :=
  let scaled : Int := Int.ediv (2 * q.num * 10000 + (q.den : Int)) (2 * (q.den : Int))
  if scaled < 0 then "-" ++ fixed4OfNat scaled.natAbs else fixed4OfNat scaled.toNat

/-- Model of `Array.prototype.join(sep)`. -/
def joinSep (sep : String) : List String → String
  | [] => ""
  | [b] => b
  | b :: bs => b ++ sep ++ joinSep sep bs

/-- Model of `s || d` for an optional JavaScript string `s`:
`undefined`, `null` and `""` all fall through to the default. -/
def strOr (o : Option String) (d : String) : String :=
  match o with
  | some s => if s = "" then d else s
  | none => d

/-- JavaScript truthiness of an optional string. -/
def truthyOptStr (o : Option String) : Bool :=
  match o with
  | some s => s ≠ ""
  | none => false

/-- Rendering of a JavaScript number inside a template literal.  The
metadata numbers occurring here are integers; non-integers are shown as
fractions (an abstraction of the float formatting, never hit in practice). -/
def ratStr (q : ℚ) : String :=
  if q.den = 1 then toString q.num else toString q.num ++ "/" ++ toString q.den

/-- A metadata value that the source types as `number | string`. -/
inductive NumStr where
  | num (q : ℚ)
  | str (s : String)
deriving DecidableEq

def NumStr.render : NumStr → String
  | .num q => ratStr q
  | .str s => s

/-- JavaScript truthiness of a `number | string` value. -/
def NumStr.truthy : NumStr → Bool
  | .num q => q ≠ 0
  | .str s => s ≠ ""

/-- A metadata value that the source types as `string[] | string`. -/
inductive ArrOrStr where
  | arr (l : List String)
  | str (s : String)
deriving DecidableEq

-- Keywords for "all planes" queries and assumed document ID
def ALL_PLANES_KEYWORDS : List String :=
  ["all planes", "all aircraft", "every plane", "list of planes", "list all planes",
   "show all planes"]

def ALL_PLANES_SUMMARY_DOC_ID : String := "all_aircraft_summary_info"

-- Keywords for specific stat requests
def SPEED_STAT_KEYWORDS : List String := ["speed", "fast", "mph", "kph", "velocity"]

def HEALTH_STAT_KEYWORDS : List String :=
  ["health", "hp", "survivability", "durability", "hitpoints", "hit points", "armor"]

def GENERAL_STAT_KEYWORDS : List String :=
  ["stats", "details", "info", "about", "full", "information", "data"]

structure KnownItem where
  name : String
  aliases : List String
  entityType : String
deriving DecidableEq

def KNOWN_GAME_ITEMS : List KnownItem :=
  [⟨"P-51 Mustang", ["p-51", "mustang", "p51"], "aircraft"⟩,
   ⟨"MiG-29 Fulcrum", ["mig-29", "fulcrum", "mig29"], "aircraft"⟩,
   ⟨"Spitfire", ["spitfire", "spit"], "aircraft"⟩]

/-- One element of the `planes_summary` array of the summary document. -/
structure PlaneSummary where
  name : Option String := none
  price : Option NumStr := none
  unlock_method : Option String := none
  seating_capacity : Option ℚ := none
  armament_summary : Option ArrOrStr := none
  speed_range : Option String := none
  health_range : Option String := none
deriving DecidableEq

/-- The metadata record attached to a retrieved vector-index record
(`BaseMetadata` / `AircraftGeneralInfoMetadata` in the source, flattened:
every field is optional). -/
structure Metadata where
  entity_type : Option String := none
  item_name : Option String := none
  info_type : Option String := none
  text_content_source : Option String := none
  planes_summary : Option (List PlaneSummary) := none
  price : Option NumStr := none
  currency : Option String := none
  unlock_method : Option String := none
  unlock_details : Option String := none
  seating_capacity : Option ℚ := none
  armament_summary : Option ArrOrStr := none
  utility : Option ArrOrStr := none
  speed_min_display : Option String := none
  speed_max_display : Option String := none
  health_min_display : Option String := none
  health_max_display : Option String := none
  hulls_component_count : Option ℚ := none
  engines_component_count : Option ℚ := none
  parts_cost_hulls : Option NumStr := none
  parts_cost_weapon_systems : Option NumStr := none
  parts_cost_engines : Option NumStr := none
  unit : Option String := none
  display_speed_non_upgraded : Option String := none
  display_speed_tier_1 : Option String := none
  display_speed_tier_2 : Option String := none
  display_speed_tier_3 : Option String := none
  speed_nu_val : Option NumStr := none
  speed_t1_val : Option NumStr := none
  speed_t2_val : Option NumStr := none
  speed_t3_val : Option NumStr := none
  display_health_non_upgraded : Option String := none
  display_health_tier_1 : Option String := none
  display_health_tier_2 : Option String := none
  display_health_tier_3 : Option String := none
  health_nu_val : Option NumStr := none
  health_t1_val : Option NumStr := none
  health_t2_val : Option NumStr := none
  health_t3_val : Option NumStr := none
  weapon_name : Option String := none
  count : Option ℚ := none
  weapon_type_general : Option String := none
  characteristics : Option (List String) := none
  notes : Option String := none
  section_title : Option String := none
  key_periods : Option (List String) := none
  role : Option String := none
  strengths : Option (List String) := none
  weaknesses : Option (List String) := none
  utility_summary_for_concise : Option (List String) := none
  aircraft_category : Option String := none
deriving DecidableEq

/-- A `ScoredPineconeRecord`: id, optional similarity score, optional
metadata. -/
structure MatchRec where
  id : String
  score : Option ℚ := none
  metadata : Option Metadata := none
deriving DecidableEq

/-- The per-plane lines of the "Summary of All Aircraft" block. -/
def planeLine (p : PlaneSummary) : String :=
  "  - Name: " ++ strOr p.name "N/A" ++ "\n" ++
  (match p.price with
   | some pr =>
     if pr.truthy then
       "    Price/Unlock: " ++ pr.render ++
       (if truthyOptStr p.unlock_method then " (" ++ p.unlock_method.getD "" ++ ")" else "") ++
       "\n"
     else ""
   | none => "") ++
  (match p.seating_capacity with
   | some q => if q ≠ 0 then "    Seating: " ++ ratStr q ++ "\n" else ""
   | none => "") ++
  (match p.armament_summary with
   | some (.arr l) => "    Armaments: " ++ joinSep ", " l ++ "\n"
   | some (.str s) => if s = "" then "" else "    Armaments: " ++ s ++ "\n"
   | none => "") ++
  (if truthyOptStr p.speed_range then
     "    Speed: " ++ p.speed_range.getD "" ++ "\n" else "") ++
  (if truthyOptStr p.health_range then
     "    Health: " ++ p.health_range.getD "" ++ "\n" else "")

def summaryDetails (planes : List PlaneSummary) : String :=
  "Summary of All Aircraft:\n" ++ String.join (planes.map planeLine) ++ "\n"

/-- The `Price/Unlock:` value of the `general_info` template. -/
def priceUnlock (md : Metadata) : String :=
  match md.price with
  | some p =>
    if p ≠ NumStr.str "N/A" then strOr md.currency "" ++ p.render
    else strOr md.unlock_method "N/A"
  | none => strOr md.unlock_method "N/A"

def armamentSummaryLine (md : Metadata) : String :=
  match md.armament_summary with
  | some (.arr l) =>
    if l.length > 0 then "Armaments Summary: " ++ joinSep ", " l ++ "\n" else ""
  | some (.str s) =>
    if s = "" then ""
    else if (trimStr s).length > 0 then "Armaments Summary: " ++ s ++ "\n" else ""
  | none => ""

def utilityLine (md : Metadata) : String :=
  match md.utility with
  | some (.arr l) =>
    if l.length > 0 then "Utilities: " ++ joinSep ", " l ++ "\n" else ""
  | some (.str s) =>
    if s = "" then ""
    else if (trimStr s).length > 0 then "Utilities: " ++ s ++ "\n" else ""
  | none => ""

def spawnCostsLine (md : Metadata) : String :=
  let costs :=
    (match md.parts_cost_hulls with
     | some v => ["Hulls: " ++ v.render]
     | none => []) ++
    (match md.parts_cost_weapon_systems with
     | some v => ["Weapon Systems: " ++ v.render]
     | none => []) ++
    (match md.parts_cost_engines with
     | some v => ["Engines: " ++ v.render]
     | none => [])
  if costs.length > 0 then "Spawn Parts Cost: " ++ joinSep ", " costs ++ "\n" else ""

def speedRangeLine (md : Metadata) : String :=
  if truthyOptStr md.speed_min_display || truthyOptStr md.speed_max_display then
    "Display Speed Range: " ++ strOr md.speed_min_display "[TBA]" ++ " - " ++
    strOr md.speed_max_display "[TBA]" ++ " MPH\n"
  else ""

def healthRangeLine (md : Metadata) : String :=
  if truthyOptStr md.health_min_display || truthyOptStr md.health_max_display then
    "Display Health Range: " ++ strOr md.health_min_display "[TBA]" ++ " - " ++
    strOr md.health_max_display "[TBA]" ++ " HP\n"
  else ""

/-- The `general_info` detail block (source lines 139-171 of the handler
module). -/
def generalInfoDetails (md : Metadata) : String :=
  "Price/Unlock: " ++ priceUnlock md ++ "\n" ++
  "Unlock Details: " ++ strOr md.unlock_details "N/A" ++ "\n" ++
  "Seating Capacity: " ++
    (match md.seating_capacity with
     | some q => ratStr q
     | none => "N/A") ++ "\n" ++
  armamentSummaryLine md ++
  utilityLine md ++
  "Component Counts: Hulls: " ++
    (match md.hulls_component_count with
     | some q => ratStr q
     | none => "N/A") ++
  ", Engines: " ++
    (match md.engines_component_count with
     | some q => ratStr q
     | none => "N/A") ++ "\n" ++
  spawnCostsLine md ++
  speedRangeLine md ++
  healthRangeLine md

/-- The value rendered by `x ?? "[TBA]"` for a `number | string` field. -/
def nnVal (o : Option NumStr) (d : String) : String :=
  match o with
  | some v => v.render
  | none => d

def speedTierLine (label : String) (display : Option String) (val : Option NumStr) : String :=
  match display with
  | some d => "  " ++ label ++ ": " ++ d ++ " (Value: " ++ nnVal val "[TBA]" ++ ")\n"
  | none => ""

/-- The `stat_speed` detail block: each tier line is emitted only when its
display field is present (`!== undefined`). -/
def statSpeedDetails (md : Metadata) : String :=
  "Detailed Speed Stats (Unit: " ++ strOr md.unit "N/A" ++ "):\n" ++
  speedTierLine "Non-Upgraded" md.display_speed_non_upgraded md.speed_nu_val ++
  speedTierLine "Tier 1" md.display_speed_tier_1 md.speed_t1_val ++
  speedTierLine "Tier 2" md.display_speed_tier_2 md.speed_t2_val ++
  speedTierLine "Tier 3" md.display_speed_tier_3 md.speed_t3_val

/-- The `stat_health` detail block. -/
def statHealthDetails (md : Metadata) : String :=
  "Detailed Health Stats (Unit: " ++ strOr md.unit "N/A" ++ "):\n" ++
  speedTierLine "Non-Upgraded" md.display_health_non_upgraded md.health_nu_val ++
  speedTierLine "Tier 1" md.display_health_tier_1 md.health_t1_val ++
  speedTierLine "Tier 2" md.display_health_tier_2 md.health_t2_val ++
  speedTierLine "Tier 3" md.display_health_tier_3 md.health_t3_val

def armamentDetails (md : Metadata) : String :=
  "Described Weapon: " ++ strOr md.weapon_name "N/A" ++ " (Count: " ++
    (match md.count with
     | some q => ratStr q
     | none => "N/A") ++
  ", Type: " ++ strOr md.weapon_type_general "N/A" ++ ")\n" ++
  (match md.characteristics with
   | some l => if l.length > 0 then "  Characteristics: " ++ joinSep ", " l ++ "\n" else ""
   | none => "") ++
  "  Notes: " ++ strOr md.notes "N/A" ++ "\n"

def historyDetails (md : Metadata) : String :=
  "Section: " ++ strOr md.section_title "History" ++ "\n" ++
  (match md.key_periods with
   | some l => if l.length > 0 then "  Key Periods: " ++ joinSep ", " l ++ "\n" else ""
   | none => "")

def overviewDetails (md : Metadata) : String :=
  "Role: " ++ strOr md.role "N/A" ++ "\n" ++
  (match md.strengths with
   | some l => if l.length > 0 then "  Strengths: " ++ joinSep "; " l ++ "\n" else ""
   | none => "") ++
  (match md.weaknesses with
   | some l => if l.length > 0 then "  Weaknesses: " ++ joinSep "; " l ++ "\n" else ""
   | none => "") ++
  (match md.utility_summary_for_concise with
   | some l => if l.length > 0 then "  Utilities: " ++ joinSep ", " l ++ "\n" else ""
   | none => "")

def categoryDetails (md : Metadata) : String :=
  "Category: " ++ strOr md.aircraft_category "N/A" ++ "\n"

/-- The generic header emitted for every record. -/
def headerOf (md : Metadata) : String :=
  "Item Name: " ++ strOr md.item_name "Unknown Item" ++
  "\nEntity Type: " ++ strOr md.entity_type "Unknown" ++
  "\nInfo Type: " ++ strOr md.info_type "General" ++ "\n"

/-- The type-specific detail block selected by the if/else chain on
`(id, entity_type, info_type)`; empty for unrecognized combinations. -/
def detailTail (idDisp : String) (md : Metadata) : String :=
  if idDisp = ALL_PLANES_SUMMARY_DOC_ID ∧ md.planes_summary.isSome then
    summaryDetails (md.planes_summary.getD [])
  else if md.entity_type = some "aircraft" then
    if md.info_type = some "general_info" then generalInfoDetails md
    else if md.info_type = some "stat_speed" then statSpeedDetails md
    else if md.info_type = some "stat_health" then statHealthDetails md
    else if md.info_type = some "armament_description" then armamentDetails md
    else if md.info_type = some "history" then historyDetails md
    else if md.info_type = some "overview_concise" then overviewDetails md
    else if md.info_type = some "category_membership" then categoryDetails md
    else ""
  else ""

def scoreDisp (m : MatchRec) : String :=
  match m.score with
  | some q => toFixed4 q
  | none => "N/A (Directly Fetched)"

/-- One formatted context block (the body of the `matches.map` callback). -/
def formatMatch (index : Nat) (m : MatchRec) : String :=
  let md := m.metadata.getD {}
  let idDisp := if m.id = "" then "N/A" else m.id
  let textSource := strOr md.text_content_source "No source text available for this chunk."
  let details := headerOf md ++ detailTail idDisp md
  "--- Context Chunk " ++ toString (index + 1) ++ " (ID: " ++ idDisp ++ ", Score: " ++
    scoreDisp m ++ ") ---\n" ++ trimStr details ++ "\nFull Text Context:\n" ++
    textSource ++ "\n---"

def formatBlocks : Nat → List MatchRec → List String
  | _, [] => []
  | i, m :: rest => formatMatch i m :: formatBlocks (i + 1) rest

def noInfoMsg : String :=
  "No relevant information was found in the knowledge base for this query."

/-- Helper function to format retrieved context. -/
def formatRetrievedContext (ms : List MatchRec) : String :=
  if ms.isEmpty then noInfoMsg
  else joinSep "\n\n" (formatBlocks 0 ms)

/-- The value the sort comparator uses: `match.score || 0`. -/
def scoreVal (m : MatchRec) : ℚ := m.score.getD 0

/-- Stable insertion used to model the (stable, ES2019) in-place
`Array.prototype.sort` with comparator `(a, b) => (b.score || 0) - (a.score || 0)`. -/
def insertDesc (m : MatchRec) : List MatchRec → List MatchRec
  | [] => [m]
  | x :: xs => if scoreVal x ≤ scoreVal m then m :: x :: xs else x :: insertDesc m xs

/-- Stable sort by descending `score || 0`.  A stable sort is uniquely
determined by its comparator, so this insertion sort computes exactly the
result of the source's `finalMatches.sort(...)`. -/
def sortDesc (l : List MatchRec) : List MatchRec := l.foldr insertDesc []

/-- The ids of `l` in first-occurrence order: the key order of
`new Map(l.map(m => [m.id, m]))`. -/
def firstKeys : List MatchRec → List String
  | [] => []
  | m :: rest => m.id :: (firstKeys rest).filter (fun k => k ≠ m.id)

/-- Model of `Array.from(new Map(l.map(m => [m.id, m])).values())`: keys in
first-occurrence order, and for each key the LAST record written with that
key (JavaScript `Map.prototype.set` overwrites). -/
def dedupeById (l : List MatchRec) : List MatchRec :=
  (firstKeys l).filterMap (fun k => (l.filter (fun m => m.id = k)).getLast?)

/-- The merge step of the handler: sort by descending score, deduplicate by
id, cap at 10 records. -/
def mergeMatches (l : List MatchRec) : List MatchRec :=
  (dedupeById (sortDesc l)).take 10

/-- `/[^a-z0-9_]/g` replacement character. -/
def snakeChar (c : Char) : Char :=
  if ('a' ≤ c ∧ c ≤ 'z') ∨ ('0' ≤ c ∧ c ≤ '9') ∨ c = '_' then c else '_'

/-- Collapse every maximal run of consecutive underscores to a single one
(`/_{2,}/g` → `'_'`). -/
def collapseUnderscores : List Char → List Char
  | [] => []
  | c :: rest =>
    match collapseUnderscores rest with
    | [] => [c]
    | d :: ds => if c = '_' ∧ d = '_' then d :: ds else c :: d :: ds

/-- `primaryItemName.toLowerCase().replace(/[^a-z0-9_]/g, '_').replace(/_{2,}/g, '_')`. -/
def snakeCase (name : String) : String :=
  String.mk (collapseUnderscores ((lowerStr name).data.map snakeChar))

/-- `ALL_PLANES_KEYWORDS.some(keyword => lowerCaseQuestion.includes(keyword))`. -/
def isAllPlanesQ (lcq : String) : Bool :=
  ALL_PLANES_KEYWORDS.any (fun k => strIncludes lcq k)

/-- Scan the semantic matches for one whose `item_name` corresponds to a
known catalog entry whose name or alias also appears in the question
(source lines 271-286). -/
def findFromMatches (lcq : String) : List MatchRec → Option KnownItem
  | [] => none
  | m :: rest =>
    let cand : Option KnownItem :=
      match m.metadata with
      | some md =>
        if truthyOptStr md.item_name && truthyOptStr md.entity_type then
          KNOWN_GAME_ITEMS.find? (fun ki =>
            (strIncludes lcq (lowerStr ki.name) ||
             ki.aliases.any (fun a => strIncludes lcq (lowerStr a))) &&
            lowerStr ki.name = lowerStr (md.item_name.getD ""))
        else none
      | none => none
    match cand with
    | some ki => some ki
    | none => findFromMatches lcq rest

/-- Fallback scan of the question text against the catalog's names and
aliases (source lines 290-304): the first item whose name or any alias
occurs in the lower-cased question. -/
def findFromQuestion (lcq : String) : Option KnownItem :=
  KNOWN_GAME_ITEMS.find? (fun item =>
    strIncludes lcq (lowerStr item.name) ||
    item.aliases.any (fun a => strIncludes lcq (lowerStr a)))

/-- Primary-item detection (source lines 270-308). -/
def detectPrimary (isAll : Bool) (lcq : String) (ms : List MatchRec) : Option KnownItem :=
  let fromMatches :=
    if !isAll || (isAll && !(ms.any (fun m => m.id = ALL_PLANES_SUMMARY_DOC_ID))) then
      findFromMatches lcq ms
    else none
  match fromMatches with
  | some ki => some ki
  | none => if !isAll then findFromQuestion lcq else none

/-- The list of per-item document ids to fetch directly (source lines
312-347): overview and general-info ids when absent, the speed-stat id when
the question asks about speed (or generically for stats), the health-stat
id when it asks about health (or generically for stats). -/
def idsToFetchFor (lcq : String) (ki : KnownItem) (ms : List MatchRec) : List String :=
  let snake := snakeCase ki.name
  let overviewFullTextId := snake ++ "_overview_full_text"
  let generalInfoId := snake ++ "_general_info"
  let statSpeedId := snake ++ "_stat_speed"
  let statHealthId := snake ++ "_stat_health"
  let requestsSpecificSpeed := SPEED_STAT_KEYWORDS.any (fun kw => strIncludes lcq kw)
  let requestsSpecificHealth := HEALTH_STAT_KEYWORDS.any (fun kw => strIncludes lcq kw)
  let requestsGeneralItemStats :=
    if (lowerStr ki.name :: ki.aliases).any (fun pik => strIncludes lcq pik) then
      GENERAL_STAT_KEYWORDS.any (fun gsk => strIncludes lcq gsk)
    else false
  (if ms.any (fun m => m.id = overviewFullTextId) then [] else [overviewFullTextId]) ++
  (if ms.any (fun m => m.id = generalInfoId) then [] else [generalInfoId]) ++
  (if (requestsSpecificSpeed || requestsGeneralItemStats) &&
      !(ms.any (fun m => m.id = statSpeedId)) then [statSpeedId] else []) ++
  (if (requestsSpecificHealth || requestsGeneralItemStats) &&
      !(ms.any (fun m => m.id = statHealthId)) then [statHealthId] else [])

/-- A record returned by `pineconeIndex.fetch` (no score). -/
structure FetchRec where
  id : String
  metadata : Option Metadata := none
deriving DecidableEq

/-- The response of `pineconeIndex.query`; its `matches` field (here
`matchList`, since `matches` is reserved in Lean) may be `undefined`. -/
structure QueryResp where
  matchList : Option (List MatchRec) := none
deriving DecidableEq

/-- The upstream services, as a record of `Except`-valued results: an
`Except.error` models the call throwing, with the error message as payload.
`fetch` returns the `records` object (optional, as the source checks it) as
an association list from id to record. -/
structure Oracle where
  embed : Except String (List ℚ)
  query : List ℚ → Except String QueryResp
  fetch : List String → Except String (Option (List (String × FetchRec)))
  completion : String → Except String (Option String)

/-- Which upstream calls a request performed: call counts for the embedding,
similarity-query and completion services, and the list of id batches passed
to `fetch`. -/
structure CallLog where
  embedCalls : Nat := 0
  queryCalls : Nat := 0
  fetchBatches : List (List String) := []
  completionCalls : Nat := 0
deriving DecidableEq

/-- The "all planes" summary-document fetch (source lines 251-268): on
success the summary record is prepended with score 1.0; a throw or a
missing record/metadata is swallowed. -/
def summaryStep (isAll : Bool) (ms : List MatchRec) (o : Oracle) :
    List MatchRec × List (List String) :=
  if isAll then
    match o.fetch [ALL_PLANES_SUMMARY_DOC_ID] with
    | .error _ => (ms, [[ALL_PLANES_SUMMARY_DOC_ID]])
    | .ok none => (ms, [[ALL_PLANES_SUMMARY_DOC_ID]])
    | .ok (some recs) =>
      match recs.lookup ALL_PLANES_SUMMARY_DOC_ID with
      | some r =>
        match r.metadata with
        | some md => (⟨r.id, some 1, some md⟩ :: ms, [[ALL_PLANES_SUMMARY_DOC_ID]])
        | none => (ms, [[ALL_PLANES_SUMMARY_DOC_ID]])
      | none => (ms, [[ALL_PLANES_SUMMARY_DOC_ID]])
  else (ms, [])

/-- Append the records fetched for the ids in `ids` (in id order) with fixed
score 0.99, skipping ids whose record or metadata is missing (source lines
352-367). -/
def appendFetched (ms : List MatchRec) (ids : List String)
    (recs : List (String × FetchRec)) : List MatchRec :=
  ms ++ ids.filterMap (fun i =>
    match recs.lookup i with
    | some r =>
      match r.metadata with
      | some md => some ⟨r.id, some (mkRat 99 100), some md⟩
      | none => none
    | none => none)

/-- The per-item direct-fetch step (source lines 311-372): only runs for an
aircraft primary item; a throw or missing `records` is swallowed. -/
def fetchDocsStep (lcq : String) (ms : List MatchRec) (o : Oracle)
    (primary : Option KnownItem) : List MatchRec × List (List String) :=
  match primary with
  | none => (ms, [])
  | some ki =>
    if ki.entityType = "aircraft" then
      let ids := idsToFetchFor lcq ki ms
      if ids.isEmpty then (ms, [])
      else
        match o.fetch ids with
        | .error _ => (ms, [ids])
        | .ok none => (ms, [ids])
        | .ok (some recs) => (appendFetched ms ids recs, [ids])
    else (ms, [])

/-- Steps 4-5 of the orchestrator for a given question and initial semantic
match list: summary fetch, primary-item detection, per-item direct fetches.
Returns the accumulated match list and the batches of ids fetched. -/
def assembleContext (question : String) (ms0 : List MatchRec) (o : Oracle) :
    List MatchRec × List (List String) :=
  let lcq := lowerStr question
  let isAll := isAllPlanesQ lcq
  let step1 := summaryStep isAll ms0 o
  let primary := detectPrimary isAll lcq step1.1
  let step2 := fetchDocsStep lcq step1.1 o primary
  (step2.1, step1.2 ++ step2.2)

/-- The context string the handler builds for a question, given the initial
semantic matches. -/
def contextFor (question : String) (ms0 : List MatchRec) (o : Oracle) : String :=
  formatRetrievedContext (mergeMatches (assembleContext question ms0 o).1)

/-- The `question` field of the request body: absent, present but not a
string (with its JavaScript truthiness), or a string. -/
inductive BodyQuestion where
  | missing
  | nonString (truthy : Bool)
  | str (s : String)
deriving DecidableEq

/-- The validation guard
`!question || typeof question !== 'string' || question.trim().length === 0`. -/
def questionRejected : BodyQuestion → Bool
  | .missing => true
  | .nonString _ => true
  | .str s => s = "" || (trimStr s).length = 0

def questionString : BodyQuestion → String
  | .str s => s
  | _ => ""

structure Request where
  method : String
  question : BodyQuestion
deriving DecidableEq

inductive RespBody where
  | empty
  | answer (s : String)
  | error (msg : String) (details : Option String)
deriving DecidableEq

structure Response where
  status : Nat
  headers : List (String × String)
  body : RespBody
deriving DecidableEq

/-- The three CORS headers the handler sets before any branch returns. -/
def corsHeaders : List (String × String) :=
  [("Access-Control-Allow-Origin", "*"),
   ("Access-Control-Allow-Methods", "POST, OPTIONS"),
   ("Access-Control-Allow-Headers", "Content-Type, Authorization")]

/-- The catch-all branch: 500 with a best-effort message extracted from the
thrown error (modelled as its message string) and stringified details. -/
def err500 (e : String) : Response :=
  ⟨500, corsHeaders,
   .error (if e = "" then "An error occurred while processing your request." else e)
     (some e)⟩

/-- `completion.choices[0]?.message?.content?.trim() || 'Sorry, ...'`. -/
def answerText (content : Option String) : String :=
  match content with
  | some c => if trimStr c = "" then "Sorry, I encountered an issue generating an answer." else trimStr c
  | none => "Sorry, I encountered an issue generating an answer."

/-- The user message: retrieved context followed by the original question. -/
def mkUserPrompt (contexts question : String) : String :=
  "\nContext from Document(s):\n" ++ contexts ++ "\n\nQuestion: " ++ question ++ "\n\nAnswer:"

/-- The completion step (source lines 378-424): format the merged context,
compose the user prompt, call the completion service, answer 200 on success
(the `catch` turning a throw into a 500). -/
def completionRespond (assembled : List MatchRec × List (List String))
    (question : String) (o : Oracle) : Response × CallLog :=
  match o.completion
      (mkUserPrompt (formatRetrievedContext (mergeMatches assembled.1)) question) with
  | .error e =>
    (err500 e,
     { embedCalls := 1, queryCalls := 1, fetchBatches := assembled.2,
       completionCalls := 1 })
  | .ok content =>
    (⟨200, corsHeaders, .answer (answerText content)⟩,
     { embedCalls := 1, queryCalls := 1, fetchBatches := assembled.2,
       completionCalls := 1 })

/-- The body of the handler's `try` block (source lines 230-436) plus the
`catch`: embedding, similarity query, context assembly, completion. -/
def processQuestion (question : String) (o : Oracle) : Response × CallLog :=
  match o.embed with
  | .error e => (err500 e, { embedCalls := 1 })
  | .ok vec =>
    match o.query vec with
    | .error e => (err500 e, { embedCalls := 1, queryCalls := 1 })
    | .ok qresp =>
      completionRespond (assembleContext question (qresp.matchList.getD []) o) question o

/-- The request handler (source lines 210-437): CORS headers on every
response, OPTIONS preflight, method check, question validation, then the
orchestration pipeline. -/
def handler (req : Request) (o : Oracle) : Response × CallLog :=
  if req.method = "OPTIONS" then (⟨200, corsHeaders, .empty⟩, {})
  else if req.method ≠ "POST" then (⟨405, corsHeaders, .error "Method not allowed" none⟩, {})
  else if questionRejected req.question then
    (⟨400, corsHeaders,
      .error "Question is required and must be a non-empty string." none⟩, {})
  else processQuestion (questionString req.question) o

/-- An oracle whose every upstream call throws; used to instantiate
theorems about paths that perform no upstream call. -/
def failingOracle : Oracle :=
  ⟨.error "down", fun _ => .error "down", fun _ => .error "down", fun _ => .error "down"⟩

/-- The catalog's Spitfire entry. -/
def spitfireEntry : KnownItem := ⟨"Spitfire", ["spitfire", "spit"], "aircraft"⟩

/-- A `general_info` aircraft record with every optional template field
absent (used to exhibit the formatter's omission of presence-guarded lines). -/
def bareGeneralInfoMeta : Metadata :=
  { entity_type := some "aircraft", info_type := some "general_info" }

def bareGeneralInfoRec : MatchRec := ⟨"doc1", none, some bareGeneralInfoMeta⟩

/-- An oracle whose embedding and query succeed (the query returning no
matches), whose fetches throw, and whose completion succeeds. -/
def partialOracle : Oracle :=
  ⟨.ok [], fun _ => .ok {}, fun _ => .error "fetch down",
   fun _ => .ok (some " The Spitfire is a fighter. ")⟩

/-- A record whose `(entity_type, info_type)` pair matches no template
(entity type "tank" is not handled). -/
def unknownTypeRec : MatchRec :=
  ⟨"tank_doc", none,
   some { entity_type := some "tank", info_type := some "general_info",
          text_content_source := some "Generic tank text." }⟩

/-- The metadata of the fetched summary record used in witnesses. -/
def summaryMeta : Metadata :=
  { item_name := some "All Aircraft Summary", planes_summary := some [] }

/-- An oracle that succeeds on the summary fetch and on everything else. -/
def summaryOracle : Oracle :=
  ⟨.ok [], fun _ => .ok {},
   fun _ => .ok (some [(ALL_PLANES_SUMMARY_DOC_ID,
     ⟨ALL_PLANES_SUMMARY_DOC_ID, some summaryMeta⟩)]),
   fun _ => .ok (some "Here are all the planes.")⟩

set_option maxRecDepth 100000

theorem mem_of_getLast?_eq {α : Type} {l : List α} {a : α}
    (h : l.getLast? = some a) : a ∈ l := by
  induction l with
  | nil => simp at h
  | cons x xs ih =>
    cases xs with
    | nil =>
      simp only [List.getLast?_singleton, Option.some.injEq] at h
      simp [h]
    | cons y ys =>
      rw [List.getLast?_cons_cons] at h
      exact List.mem_cons_of_mem x (ih h)

theorem insertDesc_perm (m : MatchRec) (l : List MatchRec) :
    (insertDesc m l).Perm (m :: l) := by
  induction l with
  | nil => exact List.Perm.refl _
  | cons x xs ih =>
    by_cases h : scoreVal x ≤ scoreVal m
    · simp [insertDesc, h]
    · simp only [insertDesc, if_neg h]
      exact (ih.cons x).trans (List.Perm.swap m x xs)

theorem sortDesc_perm (l : List MatchRec) : (sortDesc l).Perm l := by
  induction l with
  | nil => exact List.Perm.refl _
  | cons x xs ih =>
    exact (insertDesc_perm x (sortDesc xs)).trans (ih.cons x)

theorem mem_sortDesc {l : List MatchRec} {x : MatchRec} :
    x ∈ sortDesc l ↔ x ∈ l := (sortDesc_perm l).mem_iff

theorem insertDesc_pairwise {l : List MatchRec} (m : MatchRec)
    (h : List.Pairwise (fun a b => scoreVal b ≤ scoreVal a) l) :
    List.Pairwise (fun a b => scoreVal b ≤ scoreVal a) (insertDesc m l) := by
  induction l with
  | nil => simp [insertDesc]
  | cons x xs ih =>
    rw [List.pairwise_cons] at h
    obtain ⟨hx, hxs⟩ := h
    by_cases hc : scoreVal x ≤ scoreVal m
    · simp only [insertDesc, if_pos hc]
      refine List.pairwise_cons.mpr ⟨?_, List.pairwise_cons.mpr ⟨hx, hxs⟩⟩
      intro b hb
      rcases List.mem_cons.mp hb with rfl | hb2
      · exact hc
      · exact le_trans (hx b hb2) hc
    · simp only [insertDesc, if_neg hc]
      refine List.pairwise_cons.mpr ⟨?_, ih hxs⟩
      intro b hb
      rcases List.mem_cons.mp ((insertDesc_perm m xs).mem_iff.mp hb) with rfl | hb2
      · exact le_of_lt (lt_of_not_le hc)
      · exact hx b hb2

theorem sortDesc_pairwise (l : List MatchRec) :
    List.Pairwise (fun a b => scoreVal b ≤ scoreVal a) (sortDesc l) := by
  induction l with
  | nil => simp [sortDesc]
  | cons x xs ih => exact insertDesc_pairwise x ih

theorem sortDesc_cons_max {l : List MatchRec} {x : MatchRec}
    (h : ∀ y ∈ l, scoreVal y ≤ scoreVal x) :
    sortDesc (x :: l) = x :: sortDesc l := by
  show insertDesc x (sortDesc l) = x :: sortDesc l
  cases hs : sortDesc l with
  | nil => rfl
  | cons y ys =>
    have hy : y ∈ l := mem_sortDesc.mp (hs ▸ List.mem_cons_self y ys)
    simp [insertDesc, h y hy]

theorem firstKeys_sub {l : List MatchRec} {k : String}
    (h : k ∈ firstKeys l) : ∃ m ∈ l, m.id = k := by
  induction l with
  | nil => cases h
  | cons m rest ih =>
    simp only [firstKeys] at h
    rcases List.mem_cons.mp h with hk | hk
    · exact ⟨m, List.mem_cons_self m rest, hk.symm⟩
    · obtain ⟨m', hm', hid⟩ := ih (List.mem_of_mem_filter hk)
      exact ⟨m', List.mem_cons_of_mem m hm', hid⟩

theorem firstKeys_nodup (l : List MatchRec) : (firstKeys l).Nodup := by
  induction l with
  | nil => simp [firstKeys]
  | cons m rest ih =>
    simp only [firstKeys]
    refine List.Nodup.cons ?_ (ih.filter _)
    intro hmem
    have := List.of_mem_filter hmem
    simp at this

theorem map_id_filterMap_getLast (l : List MatchRec) (ks : List String)
    (hk : ∀ k ∈ ks, ∃ m ∈ l, m.id = k) :
    (ks.filterMap (fun k => (l.filter (fun m => m.id = k)).getLast?)).map
      (fun m => m.id) = ks := by
  induction ks with
  | nil => rfl
  | cons k rest ih =>
    obtain ⟨m, hm, hid⟩ := hk k (List.mem_cons_self k rest)
    have hmem : m ∈ l.filter (fun m => m.id = k) :=
      List.mem_filter.mpr ⟨hm, by simp [hid]⟩
    have hne : l.filter (fun m => m.id = k) ≠ [] := by
      intro hnil
      rw [hnil] at hmem
      cases hmem
    obtain ⟨g, hg⟩ : ∃ g, (l.filter (fun m => m.id = k)).getLast? = some g := by
      cases hgl : (l.filter (fun m => m.id = k)).getLast? with
      | none => exact absurd (List.getLast?_eq_none_iff.mp hgl) hne
      | some g => exact ⟨g, rfl⟩
    have hgid : g.id = k := by
      have := List.of_mem_filter (mem_of_getLast?_eq hg)
      simpa using this
    simp only [List.filterMap_cons, hg, List.map_cons, hgid]
    rw [ih (fun k2 hk2 => hk k2 (List.mem_cons_of_mem k hk2))]

theorem dedupe_ids (l : List MatchRec) :
    (dedupeById l).map (fun m => m.id) = firstKeys l :=
  map_id_filterMap_getLast l (firstKeys l) (fun _ h => firstKeys_sub h)

theorem dedupe_nodup_ids (l : List MatchRec) :
    ((dedupeById l).map (fun m => m.id)).Nodup := by
  rw [dedupe_ids]
  exact firstKeys_nodup l

theorem mem_dedupe {l : List MatchRec} {e : MatchRec} (h : e ∈ dedupeById l) :
    (l.filter (fun m => m.id = e.id)).getLast? = some e := by
  obtain ⟨k, _, hf⟩ := List.mem_filterMap.mp h
  have hkid : e.id = k := by
    have := List.of_mem_filter (mem_of_getLast?_eq hf)
    simpa using this
  rw [hkid]
  exact hf

theorem pairwise_getLast_le {f : List MatchRec} {e g : MatchRec}
    (hp : List.Pairwise (fun a b => scoreVal b ≤ scoreVal a) f)
    (he : e ∈ f) (hg : f.getLast? = some g) : scoreVal g ≤ scoreVal e := by
  induction f with
  | nil => cases he
  | cons x xs ih =>
    rw [List.pairwise_cons] at hp
    rcases List.mem_cons.mp he with rfl | hmem
    · cases xs with
      | nil =>
        simp only [List.getLast?_singleton, Option.some.injEq] at hg
        rw [← hg]
      | cons y ys =>
        rw [List.getLast?_cons_cons] at hg
        exact hp.1 g (mem_of_getLast?_eq hg)
    · cases xs with
      | nil => cases hmem
      | cons y ys =>
        rw [List.getLast?_cons_cons] at hg
        exact ih hp.2 hmem hg

theorem dedupe_eq_self {l : List MatchRec} (h : (l.map (fun m => m.id)).Nodup) :
    dedupeById l = l := by
  induction l with
  | nil => rfl
  | cons m rest ih =>
    rw [List.map_cons, List.nodup_cons] at h
    obtain ⟨hnotin, hnodup⟩ := h
    have hids : ∀ m' ∈ rest, m'.id ≠ m.id := by
      intro m' hm' heq
      exact hnotin (heq ▸ List.mem_map_of_mem (fun x => x.id) hm')
    have hfk : (firstKeys rest).filter (fun k => k ≠ m.id) = firstKeys rest := by
      rw [List.filter_eq_self]
      intro k hk
      obtain ⟨m', hm', hid⟩ := firstKeys_sub hk
      simp only [ne_eq, decide_not, Bool.not_eq_true', decide_eq_false_iff_not]
      exact hid ▸ hids m' hm'
    have hrestnil : rest.filter (fun x => x.id = m.id) = [] := by
      rw [List.filter_eq_nil_iff]
      intro a ha
      simp [hids a ha]
    have hfilter_head : (m :: rest).filter (fun x => x.id = m.id) = [m] := by
      simp [List.filter_cons, hrestnil]
    have hf1 : ((m :: rest).filter (fun x => x.id = m.id)).getLast? = some m := by
      rw [hfilter_head]
      rfl
    have htail : ∀ k ∈ firstKeys rest,
        ((m :: rest).filter (fun x => x.id = k)).getLast? =
        (rest.filter (fun x => x.id = k)).getLast? := by
      intro k hk
      obtain ⟨m', hm', hid⟩ := firstKeys_sub hk
      have hne : ¬ (m.id = k) := by
        rw [← hid]
        exact fun hh => hids m' hm' hh.symm
      simp [List.filter_cons, hne]
    show (firstKeys (m :: rest)).filterMap
      (fun k => ((m :: rest).filter (fun x => x.id = k)).getLast?) = m :: rest
    simp only [firstKeys, List.filterMap_cons, hf1, hfk]
    rw [List.filterMap_congr htail]
    exact congrArg (List.cons m) (ih hnodup)

theorem dedupe_cons_head (x : MatchRec) (t : List MatchRec) :
    ∃ e rest, dedupeById (x :: t) = e :: rest ∧
      ((x :: t).filter (fun m => m.id = x.id)).getLast? = some e := by
  have hmem : x ∈ (x :: t).filter (fun m => m.id = x.id) :=
    List.mem_filter.mpr ⟨List.mem_cons_self x t, by simp⟩
  have hne : (x :: t).filter (fun m => m.id = x.id) ≠ [] := by
    intro hnil
    rw [hnil] at hmem
    cases hmem
  obtain ⟨e, he⟩ : ∃ e, ((x :: t).filter (fun m => m.id = x.id)).getLast? = some e := by
    cases hgl : ((x :: t).filter (fun m => m.id = x.id)).getLast? with
    | none => exact absurd (List.getLast?_eq_none_iff.mp hgl) hne
    | some g => exact ⟨g, rfl⟩
  refine ⟨e, ((firstKeys t).filter (fun k => k ≠ x.id)).filterMap
      (fun k => ((x :: t).filter (fun m => m.id = k)).getLast?), ?_, he⟩
  simp only [dedupeById, firstKeys, List.filterMap_cons, he]

/-- C1 counterexample: two records share id "a" with scores 1 and 1/2; after
the sort-descending + Map-deduplication merge, the surviving record is the
LOWER-scoring instance, because `new Map(pairs)` keeps the last value
written for a key — not the higher-scoring one the claim requires. -/
theorem C1_dedupe_counterexample :
    mergeMatches [⟨"a", some 1, none⟩, ⟨"a", some (mkRat 1 2), none⟩] =
      [⟨"a", some (mkRat 1 2), none⟩] := by decide

/-- C1 (amended): the merged context set has pairwise-distinct ids, and the
record surviving for each id is an instance from the input with the
MINIMAL score among that id's duplicates (last-write-wins of the Map over
the descending-sorted list), not the maximal one. -/
theorem C1_dedupe_amended (l : List MatchRec) :
    ((mergeMatches l).map (fun m => m.id)).Nodup ∧
    ∀ e ∈ mergeMatches l, e ∈ l ∧ ∀ m ∈ l, m.id = e.id → scoreVal e ≤ scoreVal m := by
  constructor
  · have h1 := dedupe_nodup_ids (sortDesc l)
    exact ((List.take_sublist 10 (dedupeById (sortDesc l))).map (fun m => m.id)).nodup h1
  · intro e he
    have he2 : e ∈ dedupeById (sortDesc l) := List.mem_of_mem_take he
    have hlast := mem_dedupe he2
    have hefilter : e ∈ (sortDesc l).filter (fun m => m.id = e.id) :=
      mem_of_getLast?_eq hlast
    refine ⟨mem_sortDesc.mp (List.mem_of_mem_filter hefilter), ?_⟩
    intro m hm hid
    have hmf : m ∈ (sortDesc l).filter (fun m' => m'.id = e.id) :=
      List.mem_filter.mpr ⟨mem_sortDesc.mpr hm, by simp [hid]⟩
    exact pairwise_getLast_le ((sortDesc_pairwise l).filter _) hmf hlast

theorem C1_dedupe_amended_witness :
    (((mergeMatches [⟨"a", some 1, none⟩, ⟨"a", some (mkRat 1 2), none⟩]).map
        (fun m => m.id)).Nodup ∧
      (⟨"a", some (mkRat 1 2), none⟩ : MatchRec) ∈
        [(⟨"a", some 1, none⟩ : MatchRec), ⟨"a", some (mkRat 1 2), none⟩] ∧
      scoreVal (⟨"a", some (mkRat 1 2), none⟩ : MatchRec) ≤
        scoreVal (⟨"a", some 1, none⟩ : MatchRec)) := by
  refine ⟨(C1_dedupe_amended _).1, ?_, ?_⟩
  · exact ((C1_dedupe_amended [⟨"a", some 1, none⟩, ⟨"a", some (mkRat 1 2), none⟩]).2
      ⟨"a", some (mkRat 1 2), none⟩ (by decide)).1
  · exact ((C1_dedupe_amended [⟨"a", some 1, none⟩, ⟨"a", some (mkRat 1 2), none⟩]).2
      ⟨"a", some (mkRat 1 2), none⟩ (by decide)).2 ⟨"a", some 1, none⟩ (by decide) rfl

/-- C4: for a result set with pairwise-distinct ids the merge step is just
the descending stable sort capped at 10, the merged list is sorted by
descending score, the formatted output is the ordered join of the per-record
blocks, and on the claim's concrete scores [0.9, 0.99, 0.5] the order is
0.99, 0.9, 0.5. -/
theorem C4_descending_order (l : List MatchRec) (h : (l.map (fun m => m.id)).Nodup) :
    mergeMatches l = (sortDesc l).take 10 ∧
    List.Pairwise (fun a b => scoreVal b ≤ scoreVal a) (mergeMatches l) ∧
    (mergeMatches l ≠ [] →
      formatRetrievedContext (mergeMatches l) =
        joinSep "\n\n" (formatBlocks 0 (mergeMatches l))) ∧
    mergeMatches [⟨"a", some (mkRat 9 10), none⟩, ⟨"b", some (mkRat 99 100), none⟩,
        ⟨"c", some (mkRat 1 2), none⟩] =
      [⟨"b", some (mkRat 99 100), none⟩, ⟨"a", some (mkRat 9 10), none⟩,
       ⟨"c", some (mkRat 1 2), none⟩] := by
  have hnodup2 : ((sortDesc l).map (fun m => m.id)).Nodup :=
    ((sortDesc_perm l).map (fun m => m.id)).nodup_iff.mpr h
  have hd : dedupeById (sortDesc l) = sortDesc l := dedupe_eq_self hnodup2
  refine ⟨by rw [mergeMatches, hd], ?_, ?_, by decide⟩
  · rw [mergeMatches, hd]
    exact List.Pairwise.sublist (List.take_sublist _ _) (sortDesc_pairwise l)
  · intro hne
    rw [formatRetrievedContext, if_neg]
    simpa [List.isEmpty_iff] using hne

theorem C4_descending_order_witness :
    (([(⟨"a", some (mkRat 9 10), none⟩ : MatchRec), ⟨"b", some (mkRat 99 100), none⟩,
        ⟨"c", some (mkRat 1 2), none⟩].map (fun m => m.id)).Nodup ∧
      List.Pairwise (fun a b => scoreVal b ≤ scoreVal a)
        (mergeMatches [⟨"a", some (mkRat 9 10), none⟩, ⟨"b", some (mkRat 99 100), none⟩,
          ⟨"c", some (mkRat 1 2), none⟩])) := by
  refine ⟨by decide, ?_⟩
  exact (C4_descending_order [⟨"a", some (mkRat 9 10), none⟩, ⟨"b", some (mkRat 99 100), none⟩,
    ⟨"c", some (mkRat 1 2), none⟩] (by decide)).2.1

/-- C2 counterexample: a `general_info` aircraft record with
`armament_summary` and the display-range fields absent from metadata: the
template's armament-summary and display-speed-range fields produce NO line
at all in the output block (they are silently omitted), not a placeholder,
refuting the claim that every absent template field renders as "N/A" or
"[TBA]". -/
theorem C2_placeholder_counterexample :
    strIncludes (formatRetrievedContext [bareGeneralInfoRec]) "Armaments Summary" = false ∧
    strIncludes (formatRetrievedContext [bareGeneralInfoRec]) "Display Speed Range" = false := by
  decide

/-- C2 (amended): in a known template, the unconditionally rendered fields
do print their placeholder when absent (never an empty string or an
`undefined` literal) — price/unlock, unlock details, seating capacity and
component counts print "N/A", the stat unit prints "N/A" — but the
presence-guarded lines (armament summary, utilities, spawn part costs,
display speed/health ranges, and each per-tier stat line) are silently
omitted when their field is absent. -/
theorem C2_placeholder_amended (md : Metadata)
    (h1 : md.price = none) (h2 : md.unlock_method = none) (h3 : md.unlock_details = none)
    (h4 : md.seating_capacity = none) (h5 : md.armament_summary = none)
    (h6 : md.utility = none) (h7 : md.hulls_component_count = none)
    (h8 : md.engines_component_count = none) (h9 : md.parts_cost_hulls = none)
    (h10 : md.parts_cost_weapon_systems = none) (h11 : md.parts_cost_engines = none)
    (h12 : md.speed_min_display = none) (h13 : md.speed_max_display = none)
    (h14 : md.health_min_display = none) (h15 : md.health_max_display = none)
    (h16 : md.unit = none) (h17 : md.display_speed_non_upgraded = none)
    (h18 : md.display_speed_tier_1 = none) (h19 : md.display_speed_tier_2 = none)
    (h20 : md.display_speed_tier_3 = none) :
    generalInfoDetails md =
      "Price/Unlock: N/A\nUnlock Details: N/A\nSeating Capacity: N/A\nComponent Counts: Hulls: N/A, Engines: N/A\n" ∧
    statSpeedDetails md = "Detailed Speed Stats (Unit: N/A):\n" := by
  constructor
  · simp [generalInfoDetails, priceUnlock, armamentSummaryLine, utilityLine,
      spawnCostsLine, speedRangeLine, healthRangeLine, strOr, truthyOptStr,
      h1, h2, h3, h4, h5, h6, h7, h8, h9, h10, h11, h12, h13, h14, h15]
  · simp [statSpeedDetails, speedTierLine, strOr, h16, h17, h18, h19, h20]

theorem C2_placeholder_amended_witness :
    (generalInfoDetails {} =
      "Price/Unlock: N/A\nUnlock Details: N/A\nSeating Capacity: N/A\nComponent Counts: Hulls: N/A, Engines: N/A\n" ∧
    statSpeedDetails {} = "Detailed Speed Stats (Unit: N/A):\n") :=
  C2_placeholder_amended {} rfl rfl rfl rfl rfl rfl rfl rfl rfl rfl rfl rfl rfl rfl
    rfl rfl rfl rfl rfl rfl

/-- C3: a POST request whose question is missing, not a string, or empty
after trimming is rejected with status 400 and the call log stays empty —
no embedding, query, fetch or completion call is made. -/
theorem C3_validation (q : BodyQuestion) (o : Oracle)
    (h : questionRejected q = true) :
    (handler ⟨"POST", q⟩ o).1.status = 400 ∧ (handler ⟨"POST", q⟩ o).2 = {} := by
  constructor <;> simp [handler, h]

theorem C3_validation_witness :
    questionRejected (.str "   ") = true ∧
    ((handler ⟨"POST", .str "   "⟩ failingOracle).1.status = 400 ∧
     (handler ⟨"POST", .str "   "⟩ failingOracle).2 = {}) :=
  ⟨by decide, C3_validation (.str "   ") failingOracle (by decide)⟩

/-- C5: a record whose id is not the summary document and whose
`(entity_type, info_type)` pair hits no branch of the dispatch chain still
renders: the generic header (trimmed) plus the raw source text inside the
chunk frame, with an empty detail tail.  The formatter is a total function,
so no such input can make it throw. -/
theorem C5_fallback (i : Nat) (m : MatchRec)
    (hsum : ¬((if m.id = "" then "N/A" else m.id) = ALL_PLANES_SUMMARY_DOC_ID ∧
        (m.metadata.getD {}).planes_summary.isSome))
    (hair : (m.metadata.getD {}).entity_type = some "aircraft" →
      ∀ t ∈ ["general_info", "stat_speed", "stat_health", "armament_description",
        "history", "overview_concise", "category_membership"],
        (m.metadata.getD {}).info_type ≠ some t) :
    detailTail (if m.id = "" then "N/A" else m.id) (m.metadata.getD {}) = "" ∧
    formatMatch i m =
      "--- Context Chunk " ++ toString (i + 1) ++ " (ID: " ++
        (if m.id = "" then "N/A" else m.id) ++ ", Score: " ++ scoreDisp m ++ ") ---\n" ++
      trimStr (headerOf (m.metadata.getD {})) ++ "\nFull Text Context:\n" ++
      strOr (m.metadata.getD {}).text_content_source
        "No source text available for this chunk." ++ "\n---" := by
  have hdt : detailTail (if m.id = "" then "N/A" else m.id) (m.metadata.getD {}) = "" := by
    unfold detailTail
    rw [if_neg hsum]
    by_cases he : (m.metadata.getD {}).entity_type = some "aircraft"
    · rw [if_pos he, if_neg (hair he _ (by decide)), if_neg (hair he _ (by decide)),
        if_neg (hair he _ (by decide)), if_neg (hair he _ (by decide)),
        if_neg (hair he _ (by decide)), if_neg (hair he _ (by decide)),
        if_neg (hair he _ (by decide))]
    · rw [if_neg he]
  refine ⟨hdt, ?_⟩
  simp only [formatMatch, hdt, String.append_empty]

theorem C5_fallback_witness :
    (¬((if unknownTypeRec.id = "" then "N/A" else unknownTypeRec.id) =
          ALL_PLANES_SUMMARY_DOC_ID ∧
        (unknownTypeRec.metadata.getD {}).planes_summary.isSome) ∧
     detailTail (if unknownTypeRec.id = "" then "N/A" else unknownTypeRec.id)
       (unknownTypeRec.metadata.getD {}) = "" ∧
     formatMatch 0 unknownTypeRec =
       "--- Context Chunk " ++ toString (0 + 1) ++ " (ID: " ++
         (if unknownTypeRec.id = "" then "N/A" else unknownTypeRec.id) ++ ", Score: " ++
         scoreDisp unknownTypeRec ++ ") ---\n" ++
       trimStr (headerOf (unknownTypeRec.metadata.getD {})) ++ "\nFull Text Context:\n" ++
       strOr (unknownTypeRec.metadata.getD {}).text_content_source
         "No source text available for this chunk." ++ "\n---") := by
  refine ⟨by decide, ?_⟩
  exact C5_fallback 0 unknownTypeRec (by decide) (by decide)

theorem summaryStep_false (ms : List MatchRec) (o : Oracle) :
    summaryStep false ms o = (ms, []) := rfl

theorem assembleContext_eq (q : String) (ms0 : List MatchRec) (o : Oracle) :
    assembleContext q ms0 o =
      ((fetchDocsStep (lowerStr q) (summaryStep (isAllPlanesQ (lowerStr q)) ms0 o).1 o
          (detectPrimary (isAllPlanesQ (lowerStr q)) (lowerStr q)
            (summaryStep (isAllPlanesQ (lowerStr q)) ms0 o).1)).1,
       (summaryStep (isAllPlanesQ (lowerStr q)) ms0 o).2 ++
         (fetchDocsStep (lowerStr q) (summaryStep (isAllPlanesQ (lowerStr q)) ms0 o).1 o
           (detectPrimary (isAllPlanesQ (lowerStr q)) (lowerStr q)
             (summaryStep (isAllPlanesQ (lowerStr q)) ms0 o).1)).2) := rfl

theorem fetchDocsStep_none (lcq : String) (ms : List MatchRec) (o : Oracle) :
    fetchDocsStep lcq ms o none = (ms, []) := rfl

theorem fetchDocsStep_log (lcq : String) (ms : List MatchRec) (o : Oracle) (ki : KnownItem)
    (hair : ki.entityType = "aircraft")
    (hne : (idsToFetchFor lcq ki ms).isEmpty = false) :
    (fetchDocsStep lcq ms o (some ki)).2 = [idsToFetchFor lcq ki ms] := by
  cases hfr : o.fetch (idsToFetchFor lcq ki ms) with
  | error e => simp [fetchDocsStep, hair, hne, hfr]
  | ok ov =>
    cases ov with
    | none => simp [fetchDocsStep, hair, hne, hfr]
    | some recs => simp [fetchDocsStep, hair, hne, hfr]

/-- C7: for the question "what is the speed of the spitfire" the fallback
catalog scan resolves the primary item to the Spitfire entry, and the
derived direct-fetch list contains `spitfire_stat_speed` (along with the
overview and general-info ids) but NOT `spitfire_stat_health`; whatever the
fetch oracle does, the single fetch batch issued is exactly that list. -/
theorem C7_primary_item (o : Oracle) :
    findFromQuestion (lowerStr "what is the speed of the spitfire") = some spitfireEntry ∧
    detectPrimary (isAllPlanesQ (lowerStr "what is the speed of the spitfire"))
      (lowerStr "what is the speed of the spitfire") [] = some spitfireEntry ∧
    idsToFetchFor (lowerStr "what is the speed of the spitfire") spitfireEntry [] =
      ["spitfire_overview_full_text", "spitfire_general_info", "spitfire_stat_speed"] ∧
    "spitfire_stat_speed" ∈
      idsToFetchFor (lowerStr "what is the speed of the spitfire") spitfireEntry [] ∧
    "spitfire_stat_health" ∉
      idsToFetchFor (lowerStr "what is the speed of the spitfire") spitfireEntry [] ∧
    (assembleContext "what is the speed of the spitfire" [] o).2 =
      [["spitfire_overview_full_text", "spitfire_general_info", "spitfire_stat_speed"]] := by
  refine ⟨by decide, by decide, by decide, by decide, by decide, ?_⟩
  simp only [assembleContext_eq,
    show isAllPlanesQ (lowerStr "what is the speed of the spitfire") = false from by decide,
    summaryStep_false,
    show detectPrimary false (lowerStr "what is the speed of the spitfire") [] =
      some spitfireEntry from by decide,
    fetchDocsStep_log (lowerStr "what is the speed of the spitfire") [] o spitfireEntry
      (by decide) (by decide),
    show idsToFetchFor (lowerStr "what is the speed of the spitfire") spitfireEntry [] =
      ["spitfire_overview_full_text", "spitfire_general_info", "spitfire_stat_speed"]
      from by decide,
    List.nil_append]

/-- C8: a failing (or empty-returning) direct fetch is non-fatal: whatever
the fetch oracle does, when the embedding, the similarity query and the
completion calls succeed, the handler returns 200 with the completion's
answer. -/
theorem C8_fetch_nonfatal (o : Oracle) (q : String) (vec : List ℚ) (resp : QueryResp)
    (content : Option String)
    (hq : questionRejected (.str q) = false)
    (he : o.embed = .ok vec)
    (hqy : o.query vec = .ok resp)
    (hc : ∀ p, o.completion p = .ok content) :
    (handler ⟨"POST", .str q⟩ o).1.status = 200 ∧
    (handler ⟨"POST", .str q⟩ o).1.body = .answer (answerText content) := by
  constructor <;> simp [handler, hq, processQuestion, completionRespond, he, hqy, hc]

theorem C8_fetch_nonfatal_witness :
    questionRejected (.str "tell me about the spitfire") = false ∧
    ((handler ⟨"POST", .str "tell me about the spitfire"⟩ partialOracle).1.status = 200 ∧
     (handler ⟨"POST", .str "tell me about the spitfire"⟩ partialOracle).1.body =
       .answer (answerText (some " The Spitfire is a fighter. "))) :=
  ⟨by decide,
   C8_fetch_nonfatal partialOracle "tell me about the spitfire" [] {}
     (some " The Spitfire is a fighter. ") (by decide) rfl rfl (fun _ => rfl)⟩

/-- C9: the formatter maps an empty match list to the fixed no-information
sentence (never an empty string); for a question that triggers no direct
fetch, when the query returns no matches the request still reaches the
completion call and answers 200, with that fixed sentence as the whole
context. -/
theorem C9_empty_context (o : Oracle) (q : String) (vec : List ℚ) (content : Option String)
    (hq : questionRejected (.str q) = false)
    (hAll : isAllPlanesQ (lowerStr q) = false)
    (hItem : findFromQuestion (lowerStr q) = none)
    (he : o.embed = .ok vec)
    (hqy : o.query vec = .ok {})
    (hc : ∀ p, o.completion p = .ok content) :
    formatRetrievedContext [] = noInfoMsg ∧
    contextFor q [] o = noInfoMsg ∧
    (handler ⟨"POST", .str q⟩ o).1 = ⟨200, corsHeaders, .answer (answerText content)⟩ ∧
    (handler ⟨"POST", .str q⟩ o).2.completionCalls = 1 := by
  have hdet : detectPrimary false (lowerStr q) [] = none := by
    simp [detectPrimary, findFromMatches, hItem]
  have hasm : assembleContext q [] o = ([], []) := by
    simp only [assembleContext_eq, hAll, summaryStep_false, hdet, fetchDocsStep_none,
      List.append_nil]
  refine ⟨rfl, ?_, ?_, ?_⟩
  · unfold contextFor
    rw [hasm]
    rfl
  · simp [handler, hq, processQuestion, completionRespond, he, hqy, hc]
  · simp [handler, hq, processQuestion, completionRespond, he, hqy, hc]


theorem C9_empty_context_witness :
    questionRejected (.str "hello") = false ∧
    isAllPlanesQ (lowerStr "hello") = false ∧
    findFromQuestion (lowerStr "hello") = none ∧
    (formatRetrievedContext [] = noInfoMsg ∧
     contextFor "hello" [] partialOracle = noInfoMsg ∧
     (handler ⟨"POST", .str "hello"⟩ partialOracle).1 =
       ⟨200, corsHeaders, .answer (answerText (some " The Spitfire is a fighter. "))⟩ ∧
     (handler ⟨"POST", .str "hello"⟩ partialOracle).2.completionCalls = 1) :=
  ⟨by decide, by decide, by decide,
   C9_empty_context partialOracle "hello" [] (some " The Spitfire is a fighter. ")
     (by decide) (by decide) (by decide) rfl rfl (fun _ => rfl)⟩

/-- C10: every response of the handler — preflight 200, 405, validation
400, upstream-failure 500 and success 200 alike — carries the three CORS
headers, which the handler sets before any branch returns. -/
theorem C10_cors_headers (req : Request) (o : Oracle) :
    (handler req o).1.headers = corsHeaders := by
  have hcr : ∀ assembled q, (completionRespond assembled q o).1.headers = corsHeaders := by
    intro assembled q
    unfold completionRespond
    split <;> rfl
  unfold handler processQuestion
  split
  · rfl
  · split
    · rfl
    · split
      · rfl
      · split
        · rfl
        · split
          · rfl
          · exact hcr _ _

theorem joinSep_cons_first (sep b : String) (bs : List String) :
    ∃ t, joinSep sep (b :: bs) = b ++ t := by
  cases bs with
  | nil => exact ⟨"", (String.append_empty b).symm⟩
  | cons c cs =>
    refine ⟨sep ++ joinSep sep (c :: cs), ?_⟩
    show b ++ sep ++ joinSep sep (c :: cs) = b ++ (sep ++ joinSep sep (c :: cs))
    rw [String.append_assoc]

/-- C6: for the question "list all planes" (which contains a list-all
trigger phrase), the orchestrator's only fetch batch is the summary id
`all_aircraft_summary_info`, issued before any per-item processing; on a
successful fetch the summary record is prepended with maximal score 1, and
— as long as the semantic scores do not exceed 1 — the merged context list
starts with a record bearing the summary id (the summary record itself when
no semantic match shares that id), so its block comes first in the
formatted context. -/
theorem C6_list_all_planes (o : Oracle) (ms : List MatchRec)
    (recs : List (String × FetchRec)) (r : FetchRec) (md : Metadata)
    (hfetch : o.fetch [ALL_PLANES_SUMMARY_DOC_ID] = .ok (some recs))
    (hlook : recs.lookup ALL_PLANES_SUMMARY_DOC_ID = some r)
    (hmd : r.metadata = some md)
    (hid : r.id = ALL_PLANES_SUMMARY_DOC_ID)
    (hscores : ∀ m ∈ ms, scoreVal m ≤ 1) :
    (assembleContext "list all planes" ms o).2 = [[ALL_PLANES_SUMMARY_DOC_ID]] ∧
    (assembleContext "list all planes" ms o).1 =
      ⟨ALL_PLANES_SUMMARY_DOC_ID, some 1, some md⟩ :: ms ∧
    ∃ e rest, mergeMatches ((assembleContext "list all planes" ms o).1) = e :: rest ∧
      e.id = ALL_PLANES_SUMMARY_DOC_ID ∧
      ((∀ m ∈ ms, m.id ≠ ALL_PLANES_SUMMARY_DOC_ID) →
        e = ⟨ALL_PLANES_SUMMARY_DOC_ID, some 1, some md⟩) ∧
      ∃ t, formatRetrievedContext (mergeMatches ((assembleContext "list all planes" ms o).1)) =
        formatMatch 0 e ++ t := by
  have hAll : isAllPlanesQ (lowerStr "list all planes") = true := by decide
  have hsum : summaryStep true ms o =
      (⟨ALL_PLANES_SUMMARY_DOC_ID, some 1, some md⟩ :: ms, [[ALL_PLANES_SUMMARY_DOC_ID]]) := by
    simp [summaryStep, hfetch, hlook, hmd, hid]
  have hdet : detectPrimary true (lowerStr "list all planes")
      ((⟨ALL_PLANES_SUMMARY_DOC_ID, some 1, some md⟩ : MatchRec) :: ms) = none := by
    simp [detectPrimary]
  have hasm : assembleContext "list all planes" ms o =
      (⟨ALL_PLANES_SUMMARY_DOC_ID, some 1, some md⟩ :: ms, [[ALL_PLANES_SUMMARY_DOC_ID]]) := by
    simp only [assembleContext_eq, hAll, hsum, hdet, fetchDocsStep_none, List.append_nil]
  refine ⟨by rw [hasm], by rw [hasm], ?_⟩
  simp only [hasm]
  have hsort : sortDesc ((⟨ALL_PLANES_SUMMARY_DOC_ID, some 1, some md⟩ : MatchRec) :: ms) =
      ⟨ALL_PLANES_SUMMARY_DOC_ID, some 1, some md⟩ :: sortDesc ms := by
    apply sortDesc_cons_max
    intro y hy
    simpa [scoreVal] using hscores y hy
  obtain ⟨e, rest, hded, hlast⟩ :=
    dedupe_cons_head ⟨ALL_PLANES_SUMMARY_DOC_ID, some 1, some md⟩ (sortDesc ms)
  have heid : e.id = ALL_PLANES_SUMMARY_DOC_ID := by
    have hm := List.of_mem_filter (mem_of_getLast?_eq hlast)
    simpa using hm
  have hmerge : mergeMatches ((⟨ALL_PLANES_SUMMARY_DOC_ID, some 1, some md⟩ : MatchRec) :: ms) =
      e :: rest.take 9 := by
    rw [mergeMatches, hsort, hded]
    rfl
  refine ⟨e, rest.take 9, hmerge, heid, ?_, ?_⟩
  · intro hnone
    have htl : (sortDesc ms).filter (fun m => m.id = ALL_PLANES_SUMMARY_DOC_ID) = [] := by
      rw [List.filter_eq_nil_iff]
      intro a ha
      simp [hnone a (mem_sortDesc.mp ha)]
    have hfe : (((⟨ALL_PLANES_SUMMARY_DOC_ID, some 1, some md⟩ : MatchRec) ::
        sortDesc ms).filter
        (fun m => m.id = (⟨ALL_PLANES_SUMMARY_DOC_ID, some 1, some md⟩ : MatchRec).id)) =
        [⟨ALL_PLANES_SUMMARY_DOC_ID, some 1, some md⟩] := by
      simp [List.filter_cons, htl]
    rw [hfe] at hlast
    have := hlast
    simp only [List.getLast?_singleton, Option.some.injEq] at this
    exact this.symm
  · rw [hmerge]
    have hne : ((e :: rest.take 9).isEmpty = true) = False := by simp
    simp only [formatRetrievedContext, hne, if_false]
    exact joinSep_cons_first "\n\n" (formatMatch 0 e) (formatBlocks 1 (rest.take 9))

theorem C6_list_all_planes_witness :
    summaryOracle.fetch [ALL_PLANES_SUMMARY_DOC_ID] =
      .ok (some [(ALL_PLANES_SUMMARY_DOC_ID,
        ⟨ALL_PLANES_SUMMARY_DOC_ID, some summaryMeta⟩)]) ∧
    ((assembleContext "list all planes" [] summaryOracle).2 =
       [[ALL_PLANES_SUMMARY_DOC_ID]] ∧
     (assembleContext "list all planes" [] summaryOracle).1 =
       ⟨ALL_PLANES_SUMMARY_DOC_ID, some 1, some summaryMeta⟩ :: [] ∧
     ∃ e rest,
       mergeMatches ((assembleContext "list all planes" [] summaryOracle).1) = e :: rest ∧
       e.id = ALL_PLANES_SUMMARY_DOC_ID ∧
       ((∀ m ∈ ([] : List MatchRec), m.id ≠ ALL_PLANES_SUMMARY_DOC_ID) →
         e = ⟨ALL_PLANES_SUMMARY_DOC_ID, some 1, some summaryMeta⟩) ∧
       ∃ t, formatRetrievedContext
           (mergeMatches ((assembleContext "list all planes" [] summaryOracle).1)) =
         formatMatch 0 e ++ t) :=
  ⟨rfl,
   C6_list_all_planes summaryOracle []
     [(ALL_PLANES_SUMMARY_DOC_ID, ⟨ALL_PLANES_SUMMARY_DOC_ID, some summaryMeta⟩)]
     ⟨ALL_PLANES_SUMMARY_DOC_ID, some summaryMeta⟩ summaryMeta rfl (by decide) rfl rfl
     (fun m hm => absurd hm (List.not_mem_nil m))⟩
